import Mathlib

/-!
Shallow embedding of the TrickHLA / SpaceFOM latency-compensation core
(`PhysicalEntity` pack/unpack, `DynamicalEntityLagCompBase` send/receive,
`PhysicalEntityLagCompInteg` initialization checks, `Conditional`,
`TimedSyncPntList`), together with theorems settling the specification
claims about it.

Modelling conventions:
* C `double` scalars are embedded as `ℚ`; all comparisons performed by the
  source on concrete values coincide with the rational comparisons.
* C strings (`char *`) that may be NULL are `Option String`; `trick_MM`
  duplication (`mm_strdup`) and deletion (`delete_var`) are value-level
  identity / no-ops; `strcmp(a, b) == 0` is string equality.
* A call to `TrickHLA::DebugHandler::terminate_with_message`, and a NULL
  pointer dereference (`strcmp` or `mm_strdup` applied to NULL), end the
  run: functions that can reach one return `Option`, yielding `none` there.
* `TrickHLA::Attribute` is embedded by the three per-attribute ownership
  flags the source reads (`locally_owned`, `is_changed`, `is_received`).
-/

/-- A 3-vector of doubles (`double v[3]`). -/
structure Vec3 where
  x : ℚ
  y : ℚ
  z : ℚ
deriving DecidableEq

/-- SpaceFOM quaternion data: scalar part plus 3-vector part. -/
structure QuaternionData where
  scalar : ℚ
  vector : Vec3
deriving DecidableEq

/-- A 3×3 matrix of doubles (`double m[3][3]`), row major. -/
structure Mat3 where
  xx : ℚ
  xy : ℚ
  xz : ℚ
  yx : ℚ
  yy : ℚ
  yz : ℚ
  zx : ℚ
  zy : ℚ
  zz : ℚ
deriving DecidableEq

/-- The zero 3×3 matrix; the result of Trick's `M_INIT` macro. -/
def Mat3.zero : Mat3 := ⟨0, 0, 0, 0, 0, 0, 0, 0, 0⟩

/-- Determinant of a 3×3 matrix. -/
def Mat3.det (m : Mat3) : ℚ :=
  m.xx * (m.yy * m.zz - m.yz * m.zy)
    - m.xy * (m.yx * m.zz - m.yz * m.zx)
    + m.xz * (m.yx * m.zy - m.yy * m.zx)

/-- Inverse of a 3×3 matrix by the adjugate formula (defined for `det ≠ 0`;
returns junk scaled by `1/0 = 0` otherwise, callers guard on the
determinant). -/
def Mat3.inv (m : Mat3) : Mat3 :=
  let d := m.det
  ⟨ (m.yy * m.zz - m.yz * m.zy) / d, (m.xz * m.zy - m.xy * m.zz) / d,
    (m.xy * m.yz - m.xz * m.yy) / d, (m.yz * m.zx - m.yx * m.zz) / d,
    (m.xx * m.zz - m.xz * m.zx) / d, (m.xz * m.yx - m.xx * m.yz) / d,
    (m.yx * m.zy - m.yy * m.zx) / d, (m.xy * m.zx - m.xx * m.zy) / d,
    (m.xx * m.yy - m.xy * m.yx) / d ⟩

/-- Embedding of the Trick math library routine `dm_invert_symm` as used by
`DynamicalEntityLagCompBase`: inversion of a (symmetric) 3×3 matrix that
fails (returns a code other than `TM_SUCCESS`) exactly on a singular
matrix.  `none` is the failure return. -/
def dm_invert_symm (m : Mat3) : Option Mat3 :=
  if m.det = 0 then none else some m.inv

/-- SpaceFOM space-time coordinate state: position, velocity, attitude
quaternion, angular velocity and the embedded time tag. -/
structure SpaceTimeCoordinateData where
  pos : Vec3
  vel : Vec3
  quat : QuaternionData
  ang_vel : Vec3
  time : ℚ
deriving DecidableEq

/-- The working `PhysicalEntityData` a `PhysicalEntity` points at
(`physical_data`): identity strings plus kinematic state. -/
structure PhysicalEntityData where
  name : Option String
  type : Option String
  status : Option String
  parent_frame : Option String
  state : SpaceTimeCoordinateData
  accel : Vec3
  rot_accel : Vec3
  cm : Vec3
  body_wrt_struct : QuaternionData
deriving DecidableEq

/-- The packing-side `PhysicalEntityData` (`pe_packing_data`).  Its `name`
and `parent_frame` strings are initialized non-NULL by the base class and
never assigned NULL by the code under study, so they are plain `String`;
`type` and `status` are genuinely nullable. -/
structure PhysicalEntityPackingData where
  name : String
  type : Option String
  status : Option String
  parent_frame : String
  state : SpaceTimeCoordinateData
  accel : Vec3
  rot_accel : Vec3
  cm : Vec3
  body_wrt_struct : QuaternionData
deriving DecidableEq

/-- Per-attribute ownership record (`TrickHLA::Attribute`, restricted to
the flags read by this code). -/
structure AttributeFlags where
  locally_owned : Bool
  changed_since_send : Bool
  received_this_cycle : Bool
deriving DecidableEq

/-- Embedding of `Attribute::is_received()`. -/
def AttributeFlags.is_received (a : AttributeFlags) : Bool :=
  a.received_this_cycle

/-- Embedding of `Attribute::is_changed()`. -/
def AttributeFlags.is_changed (a : AttributeFlags) : Bool :=
  a.changed_since_send

/-- The attribute references held by a `PhysicalEntity` packing object:
`state_attr`, `name_attr`, `type_attr`, `status_attr`,
`parent_frame_attr`, `body_frame_attr`. -/
structure PhysicalEntityAttributes where
  state_attr : AttributeFlags
  name_attr : AttributeFlags
  type_attr : AttributeFlags
  status_attr : AttributeFlags
  parent_frame_attr : AttributeFlags
  body_frame_attr : AttributeFlags
deriving DecidableEq

/-! ### PhysicalEntity::pack_from_working_data (PhysicalEntity.cpp:125) -/

/-- Embedding of `PhysicalEntity::pack_from_working_data`.  `none` is the
fatal `terminate_with_message` on a NULL working `name` or NULL working
`parent_frame`.  String stores are value-level: `delete_var` followed by
`mm_strdup` of a working string assigns that string's value. -/
def pack_from_working_data (w : PhysicalEntityData)
    (p0 : PhysicalEntityPackingData) (scenario_time : ℚ) :
    Option PhysicalEntityPackingData :=
  -- Check for name change.
  match w.name with
  | none => none
  | some wn =>
    let p1 := if wn ≠ p0.name then { p0 with name := wn } else p0
    -- Check for type change.
    let p2 :=
      match w.type with
      | some wt =>
        match p1.type with
        | some pt => if wt ≠ pt then { p1 with type := some wt } else p1
        | none => { p1 with type := some wt }
      | none =>
        match p1.type with
        | some _ => { p1 with type := none }
        | none => p1
    -- Check for status change.
    let p3 :=
      match w.status with
      | some ws =>
        match p2.status with
        | some ps => if ws ≠ ps then { p2 with status := some ws } else p2
        | none => { p2 with status := some ws }
      | none =>
        match p2.status with
        | some _ => { p2 with status := none }
        | none => p2
    -- Check for parent frame change.
    match w.parent_frame with
    | none => none
    | some wp =>
      let p4 := if wp ≠ p3.parent_frame then { p3 with parent_frame := wp } else p3
      -- Pack the state, acceleration, center of mass and body-frame data;
      -- the state time tag is stamped with the current scenario time.
      some { p4 with
             state := { pos := w.state.pos
                        vel := w.state.vel
                        quat := w.state.quat
                        ang_vel := w.state.ang_vel
                        time := scenario_time }
             accel := w.accel
             rot_accel := w.rot_accel
             cm := w.cm
             body_wrt_struct := w.body_wrt_struct }

/-! ### PhysicalEntity::unpack_into_working_data (PhysicalEntity.cpp:245)

The unpack is gated per attribute on `is_received()`.  Note that the
string branches test `!strcmp(working, packed)`, i.e. they take the
reassignment branch when the two strings are already EQUAL (the opposite
of the `strcmp(...)` test used by `pack_from_working_data`), so a
differing incoming string value is never written over a non-NULL working
string. -/

/-- State attribute branch of the unpack (gated on `state_attr->is_received()`). -/
def unpack_state_attr (recv : Bool) (p : PhysicalEntityPackingData)
    (w : PhysicalEntityData) : PhysicalEntityData :=
  if recv then
    { w with state := { pos := p.state.pos
                        vel := p.state.vel
                        quat := p.state.quat
                        ang_vel := p.state.ang_vel
                        time := p.state.time } }
  else w

/-- Name attribute branch of the unpack.  The packed name is non-NULL;
note the inverted `!strcmp` comparison: a non-NULL working name is
re-duplicated when it already equals the packed name and left alone
otherwise. -/
def unpack_name_attr (recv : Bool) (pname : String)
    (w : PhysicalEntityData) : PhysicalEntityData :=
  if recv then
    match w.name with
    | some wn => if wn = pname then { w with name := some pname } else w
    | none => { w with name := some pname }
  else w

/-- Shared shape of the `type` and `status` branches of the unpack, whose
packed string may be NULL.  The outer `none` is a NULL dereference
(`strcmp` or `mm_strdup` applied to a NULL packed string); the same
inverted `!strcmp` comparison appears here. -/
def unpack_optional_string (recv : Bool) (w p : Option String) :
    Option (Option String) :=
  if recv then
    match w, p with
    | some wv, some pv => some (if wv = pv then some pv else some wv)
    | some _, none => none
    | none, some pv => some (some pv)
    | none, none => none
  else some w

/-- Parent frame branch of the unpack: behind the same inverted `!strcmp`
gate, an empty packed frame name clears the working parent frame to NULL,
a non-empty one is duplicated. -/
def unpack_parent_frame_attr (recv : Bool) (ppf : String)
    (w : PhysicalEntityData) : PhysicalEntityData :=
  if recv then
    match w.parent_frame with
    | some wp =>
      if wp = ppf then
        if ppf ≠ "" then { w with parent_frame := some ppf }
        else { w with parent_frame := none }
      else w
    | none =>
      if ppf ≠ "" then { w with parent_frame := some ppf } else w
  else w

/-- Body-to-structural frame attitude branch of the unpack. -/
def unpack_body_frame_attr (recv : Bool) (pq : QuaternionData)
    (w : PhysicalEntityData) : PhysicalEntityData :=
  if recv then { w with body_wrt_struct := pq } else w

/-- Embedding of `PhysicalEntity::unpack_into_working_data`: each
attribute group is written into the working data only when its
attribute's `is_received()` flag is set.  `none` is a NULL dereference in
the `type`/`status` branches. -/
def unpack_into_working_data (a : PhysicalEntityAttributes)
    (p : PhysicalEntityPackingData) (w0 : PhysicalEntityData) :
    Option PhysicalEntityData :=
  let w1 := unpack_state_attr a.state_attr.is_received p w0
  let w2 := unpack_name_attr a.name_attr.is_received p.name w1
  match unpack_optional_string a.type_attr.is_received w2.type p.type with
  | none => none
  | some t =>
    let w3 := { w2 with type := t }
    match unpack_optional_string a.status_attr.is_received w3.status p.status with
    | none => none
    | some st =>
      let w4 := { w3 with status := st }
      let w5 := unpack_parent_frame_attr a.parent_frame_attr.is_received p.parent_frame w4
      some (unpack_body_frame_attr a.body_frame_attr.is_received p.body_wrt_struct w5)

/-! ### DynamicalEntityLagCompBase (DynamicalEntityLagCompBase.cpp)

The lag-compensation engine composes code under study with repository
code that lives elsewhere (`PhysicalEntityLagCompBase.cpp`,
`DynamicalEntity.cpp`, the `compensate` integrator of
`LagCompensationInteg`); the latter parts are modelled from the spec and
marked as such below. -/

/-- The working `DynamicalEntityData` extension: force, torque, mass
properties. -/
structure DynamicalEntityData where
  force : Vec3
  torque : Vec3
  mass : ℚ
  mass_rate : ℚ
  inertia : Mat3
  inertia_rate : Mat3
deriving DecidableEq

/-- The packing-side dynamical extension (`de_packing_data`). -/
structure DynamicalEntityPackingData where
  force : Vec3
  torque : Vec3
  mass : ℚ
  mass_rate : ℚ
  inertia : Mat3
  inertia_rate : Mat3
deriving DecidableEq

/-- The attribute references held for the dynamical extension:
`force_attr`, `torque_attr`, `mass_attr`, `mass_rate_attr`,
`inertia_attr`, `inertia_rate_attr`. -/
structure DynamicalEntityAttributes where
  force_attr : AttributeFlags
  torque_attr : AttributeFlags
  mass_attr : AttributeFlags
  mass_rate_attr : AttributeFlags
  inertia_attr : AttributeFlags
  inertia_rate_attr : AttributeFlags
deriving DecidableEq

/-- Modelled from the spec: the lag-compensation working buffer
(`lag_comp_data` of `PhysicalEntityLagCompBase`, whose source is not
under study): the kinematic state being integrated — position, velocity,
attitude, angular velocity and its time tag. -/
structure LagCompData where
  pos : Vec3
  vel : Vec3
  att : QuaternionData
  ang_vel : Vec3
  time : ℚ
deriving DecidableEq

/-- The lag-compensation member state of `DynamicalEntityLagCompBase`:
the kinematic buffer plus the working dynamical parameters and the
derived inertia inverse. -/
structure LagCompState where
  lag_comp_data : LagCompData
  Q_dot : QuaternionData
  compensate_dt : ℚ
  force : Vec3
  torque : Vec3
  mass : ℚ
  mass_rate : ℚ
  inertia : Mat3
  inertia_rate : Mat3
  inertia_inv : Mat3
deriving DecidableEq

/-- Dot product of two 3-vectors. -/
def Vec3.dot (a b : Vec3) : ℚ := a.x * b.x + a.y * b.y + a.z * b.z

/-- Cross product of two 3-vectors. -/
def Vec3.cross (a b : Vec3) : Vec3 :=
  ⟨a.y * b.z - a.z * b.y, a.z * b.x - a.x * b.z, a.x * b.y - a.y * b.x⟩

/-- Scalar multiple of a 3-vector. -/
def Vec3.smul (c : ℚ) (a : Vec3) : Vec3 := ⟨c * a.x, c * a.y, c * a.z⟩

/-- Sum of two 3-vectors. -/
def Vec3.add (a b : Vec3) : Vec3 := ⟨a.x + b.x, a.y + b.y, a.z + b.z⟩

/-- Modelled from the spec: `QuaternionData::derivative_first` (TrickHLA
quaternion utility, source not under study) — the standard first-order
kinematic relation `q_dot = (1/2) q ⊗ (0, omega)`. -/
def derivative_first (q : QuaternionData) (omega : Vec3) : QuaternionData :=
  { scalar := -(q.vector.dot omega) / 2
    vector := Vec3.smul (1/2) (Vec3.add (Vec3.smul q.scalar omega) (q.vector.cross omega)) }

/-- Modelled from the spec: `PhysicalEntityBase::get_time` — the time tag
embedded in the packed state reading. -/
def get_time (p : PhysicalEntityPackingData) : ℚ := p.state.time

/-- Modelled from the spec: the base-class part of `load_lag_comp_data`
(`PhysicalEntityLagCompBase.cpp`, not under study) — copy the packed
kinematic state into the lag-compensation buffer. -/
def pe_load_lag_comp_data (p : PhysicalEntityPackingData)
    (lag : LagCompState) : LagCompState :=
  { lag with lag_comp_data := { pos := p.state.pos
                                vel := p.state.vel
                                att := p.state.quat
                                ang_vel := p.state.ang_vel
                                time := p.state.time } }

/-- Embedding of `DynamicalEntityLagCompBase::load_lag_comp_data`
(DynamicalEntityLagCompBase.cpp:325): the base-class copy followed by the
unconditional copy of the packed dynamical parameters into the working
members.  The derived `inertia_inv` is not loaded. -/
def load_lag_comp_data (p : PhysicalEntityPackingData)
    (dp : DynamicalEntityPackingData) (lag : LagCompState) : LagCompState :=
  let lag1 := pe_load_lag_comp_data p lag
  { lag1 with force := dp.force
              torque := dp.torque
              mass := dp.mass
              mass_rate := dp.mass_rate
              inertia := dp.inertia
              inertia_rate := dp.inertia_rate }

/-- Modelled from the spec: the base-class part of `unload_lag_comp_data`
(`PhysicalEntityLagCompBase.cpp`, not under study) — copy the
lag-compensation buffer back into the packed kinematic state. -/
def pe_unload_lag_comp_data (lag : LagCompState)
    (p : PhysicalEntityPackingData) : PhysicalEntityPackingData :=
  { p with state := { pos := lag.lag_comp_data.pos
                      vel := lag.lag_comp_data.vel
                      quat := lag.lag_comp_data.att
                      ang_vel := lag.lag_comp_data.ang_vel
                      time := lag.lag_comp_data.time } }

/-- Embedding of `DynamicalEntityLagCompBase::unload_lag_comp_data`
(DynamicalEntityLagCompBase.cpp:300): the base-class copy followed by the
unconditional copy of the working dynamical members into the packed
dynamical parameters.  The derived `inertia_inv` is not unloaded. -/
def unload_lag_comp_data (lag : LagCompState)
    (p : PhysicalEntityPackingData) (dp : DynamicalEntityPackingData) :
    PhysicalEntityPackingData × DynamicalEntityPackingData :=
  ( pe_unload_lag_comp_data lag p
  , { dp with force := lag.force
              torque := lag.torque
              mass := lag.mass
              mass_rate := lag.mass_rate
              inertia := lag.inertia
              inertia_rate := lag.inertia_rate } )

/-- Modelled from the spec: the dynamical part of
`DynamicalEntity::pack_from_working_data` (source not under study) —
unconditional copy of every numeric dynamical field into the packing
record. -/
def de_pack_from_working_data (wde : DynamicalEntityData)
    (dp : DynamicalEntityPackingData) : DynamicalEntityPackingData :=
  { dp with force := wde.force
            torque := wde.torque
            mass := wde.mass
            mass_rate := wde.mass_rate
            inertia := wde.inertia
            inertia_rate := wde.inertia_rate }

/-- Modelled from the spec: the dynamical part of
`DynamicalEntity::unpack_into_working_data` (source not under study) —
each dynamical field is written into the working data only when its
attribute's `is_received()` flag is set. -/
def de_unpack_into_working_data (a : DynamicalEntityAttributes)
    (dp : DynamicalEntityPackingData) (wde : DynamicalEntityData) :
    DynamicalEntityData :=
  let w1 := if a.force_attr.is_received then { wde with force := dp.force } else wde
  let w2 := if a.torque_attr.is_received then { w1 with torque := dp.torque } else w1
  let w3 := if a.mass_attr.is_received then { w2 with mass := dp.mass } else w2
  let w4 := if a.mass_rate_attr.is_received then { w3 with mass_rate := dp.mass_rate } else w3
  let w5 := if a.inertia_attr.is_received then { w4 with inertia := dp.inertia } else w4
  if a.inertia_rate_attr.is_received then { w5 with inertia_rate := dp.inertia_rate } else w5

/-- The full per-entity state acted on by the lag-compensation engine:
the working data, the packing record, the lag-compensation members, the
per-attribute ownership records, and a count of diagnostic error reports
emitted through `send_hs`. -/
structure DEState where
  working : PhysicalEntityData
  working_de : DynamicalEntityData
  packing : PhysicalEntityPackingData
  de_packing : DynamicalEntityPackingData
  lag : LagCompState
  attrs : PhysicalEntityAttributes
  de_attrs : DynamicalEntityAttributes
  errors : ℕ
deriving DecidableEq

/-- The compensation strategy (`compensate` of
`PhysicalEntityLagCompInteg` / `PhysicalEntityLagCompBase`, source not
under study), kept abstract: given the lag-compensation members and the
begin and end times, it produces the new integrated kinematic buffer. -/
def CompFn : Type := LagCompState → ℚ → ℚ → LagCompData

/-- Embedding of `DynamicalEntityLagCompBase::receive_lag_compensation`
(DynamicalEntityLagCompBase.cpp:198), parameterized by the compensation
strategy `comp` and the current scenario time.  `none` is a fatal end of
the run inside the final unpack. -/
def receive_lag_compensation (comp : CompFn) (scenario_time : ℚ)
    (s : DEState) : Option DEState :=
  let end_t := scenario_time
  let data_t := get_time s.packing
  let s0 := { s with lag := { s.lag with compensate_dt := end_t - data_t } }
  -- Compensate only when state attribute data was actually received.
  let s1 :=
    if s0.attrs.state_attr.is_received then
      let lag1 := load_lag_comp_data s0.packing s0.de_packing s0.lag
      let lag2 := { lag1 with
                    Q_dot := derivative_first lag1.lag_comp_data.att lag1.lag_comp_data.ang_vel }
      { s0 with lag := { lag2 with lag_comp_data := comp lag2 data_t end_t } }
    else s0
  -- Invert the inertia matrix only on fresh inertia data; on a singular
  -- matrix report the error and zero-fill the inverse (M_INIT).
  let s2 :=
    if s1.de_attrs.inertia_attr.is_received then
      match dm_invert_symm s1.lag.inertia with
      | some minv => { s1 with lag := { s1.lag with inertia_inv := minv } }
      | none => { s1 with lag := { s1.lag with inertia_inv := Mat3.zero }
                          errors := s1.errors + 1 }
    else s1
  let pd := unload_lag_comp_data s2.lag s2.packing s2.de_packing
  let s3 := { s2 with packing := pd.1, de_packing := pd.2 }
  match unpack_into_working_data s3.attrs s3.packing s3.working with
  | none => none
  | some w' =>
    some { s3 with
           working := w'
           working_de := de_unpack_into_working_data s3.de_attrs s3.de_packing s3.working_de }

/-- Embedding of `DynamicalEntityLagCompBase::send_lag_compensation`
(DynamicalEntityLagCompBase.cpp:149), parameterized by the compensation
strategy `comp`, the current scenario time and the configured lookahead.
`none` is a fatal end of the run inside the initial pack. -/
def send_lag_compensation (comp : CompFn) (scenario_time lookahead : ℚ)
    (s : DEState) : Option DEState :=
  let begin_t := scenario_time
  let end_t := begin_t + lookahead
  let s0 := { s with lag := { s.lag with compensate_dt := lookahead } }
  match pack_from_working_data s0.working s0.packing scenario_time with
  | none => none
  | some p' =>
    let s1 := { s0 with packing := p'
                        de_packing := de_pack_from_working_data s0.working_de s0.de_packing }
    let lag1 := load_lag_comp_data s1.packing s1.de_packing s1.lag
    let lag2 := { lag1 with
                  Q_dot := derivative_first lag1.lag_comp_data.att lag1.lag_comp_data.ang_vel }
    let lag3 := { lag2 with lag_comp_data := comp lag2 begin_t end_t }
    let s2 := { s1 with lag := lag3 }
    let pd := unload_lag_comp_data s2.lag s2.packing s2.de_packing
    some { s2 with packing := pd.1, de_packing := pd.2 }

/-! ### PhysicalEntityLagCompInteg::initialize (PhysicalEntityLagCompInteg.cpp:71) -/

/-- Embedding of `PhysicalEntityLagCompInteg::initialize`: `none` is the
fatal `terminate_with_message`, reached exactly when
`integ_dt < integ_tol`; `some ()` is normal completion. -/
def lag_comp_integ_init (integ_dt integ_tol : ℚ) : Option Unit :=
  if integ_dt < integ_tol then none else some ()

/-! ### Conditional::should_send (Conditional.cpp:72) -/

/-- Embedding of the default `Conditional::should_send`: always `true`,
for every attribute. -/
def Conditional.should_send (_attr : AttributeFlags) : Bool := true

/-! ### TimedSyncPntList (TimedSyncPntList.hh)

Only the declaration of `TimedSyncPntList` is under study
(`TimedSyncPntList.cpp` is not), so the registry behavior is modelled
from the spec. -/

/-- Modelled from the spec: a timed synchronization point — a label, a
target time, and whether it has been achieved. -/
structure TimedSyncPnt where
  label : String
  target_time : ℚ
  achieved : Bool
deriving DecidableEq

/-- Modelled from the spec: `is_ready(label, current_time)` for a timed
point — true once `current_time ≥ target_time`. -/
def TimedSyncPnt.is_ready (pt : TimedSyncPnt) (t : ℚ) : Bool :=
  decide (pt.target_time ≤ t)

/-- Modelled from the spec: `achieve_all(current_time)` — walk the list
in insertion order, mark every not-yet-achieved point whose target time
has been reached as achieved, and return whether at least one point
transitioned. -/
def achieve_all_sync_pnts (pts : List TimedSyncPnt) (t : ℚ) :
    List TimedSyncPnt × Bool :=
  match pts with
  | [] => ([], false)
  | pt :: rest =>
    let r := achieve_all_sync_pnts rest t
    if !pt.achieved && pt.is_ready t then
      ({ pt with achieved := true } :: r.1, true)
    else
      (pt :: r.1, r.2)

/-! ## Frame lemmas for the unpack stages

Each attribute branch of the unpack writes only its own field group. -/

@[simp] lemma unpack_state_attr_false (p : PhysicalEntityPackingData)
    (w : PhysicalEntityData) : unpack_state_attr false p w = w := rfl

@[simp] lemma unpack_state_attr_name (r : Bool) (p : PhysicalEntityPackingData)
    (w : PhysicalEntityData) : (unpack_state_attr r p w).name = w.name := by
  cases r <;> rfl

@[simp] lemma unpack_state_attr_type (r : Bool) (p : PhysicalEntityPackingData)
    (w : PhysicalEntityData) : (unpack_state_attr r p w).type = w.type := by
  cases r <;> rfl

@[simp] lemma unpack_state_attr_status (r : Bool) (p : PhysicalEntityPackingData)
    (w : PhysicalEntityData) : (unpack_state_attr r p w).status = w.status := by
  cases r <;> rfl

@[simp] lemma unpack_state_attr_parent_frame (r : Bool)
    (p : PhysicalEntityPackingData) (w : PhysicalEntityData) :
    (unpack_state_attr r p w).parent_frame = w.parent_frame := by
  cases r <;> rfl

@[simp] lemma unpack_state_attr_body (r : Bool) (p : PhysicalEntityPackingData)
    (w : PhysicalEntityData) :
    (unpack_state_attr r p w).body_wrt_struct = w.body_wrt_struct := by
  cases r <;> rfl

@[simp] lemma unpack_name_attr_false (pn : String) (w : PhysicalEntityData) :
    unpack_name_attr false pn w = w := rfl

@[simp] lemma unpack_name_attr_state (r : Bool) (pn : String)
    (w : PhysicalEntityData) : (unpack_name_attr r pn w).state = w.state := by
  cases r
  · rfl
  · unfold unpack_name_attr
    rcases w.name with _ | wn
    · rfl
    · by_cases h : wn = pn <;> simp [h]

@[simp] lemma unpack_name_attr_type (r : Bool) (pn : String)
    (w : PhysicalEntityData) : (unpack_name_attr r pn w).type = w.type := by
  cases r
  · rfl
  · unfold unpack_name_attr
    rcases w.name with _ | wn
    · rfl
    · by_cases h : wn = pn <;> simp [h]

@[simp] lemma unpack_name_attr_status (r : Bool) (pn : String)
    (w : PhysicalEntityData) : (unpack_name_attr r pn w).status = w.status := by
  cases r
  · rfl
  · unfold unpack_name_attr
    rcases w.name with _ | wn
    · rfl
    · by_cases h : wn = pn <;> simp [h]

@[simp] lemma unpack_name_attr_parent_frame (r : Bool) (pn : String)
    (w : PhysicalEntityData) :
    (unpack_name_attr r pn w).parent_frame = w.parent_frame := by
  cases r
  · rfl
  · unfold unpack_name_attr
    rcases w.name with _ | wn
    · rfl
    · by_cases h : wn = pn <;> simp [h]

@[simp] lemma unpack_name_attr_body (r : Bool) (pn : String)
    (w : PhysicalEntityData) :
    (unpack_name_attr r pn w).body_wrt_struct = w.body_wrt_struct := by
  cases r
  · rfl
  · unfold unpack_name_attr
    rcases w.name with _ | wn
    · rfl
    · by_cases h : wn = pn <;> simp [h]

@[simp] lemma unpack_optional_string_false (w p : Option String) :
    unpack_optional_string false w p = some w := rfl

@[simp] lemma unpack_parent_frame_attr_false (ppf : String)
    (w : PhysicalEntityData) : unpack_parent_frame_attr false ppf w = w := rfl

@[simp] lemma unpack_parent_frame_attr_state (r : Bool) (ppf : String)
    (w : PhysicalEntityData) :
    (unpack_parent_frame_attr r ppf w).state = w.state := by
  cases r
  · rfl
  · unfold unpack_parent_frame_attr
    rcases w.parent_frame with _ | wp
    · by_cases h : ppf = "" <;> simp [h]
    · by_cases h : wp = ppf <;> by_cases h2 : ppf = "" <;> simp_all

@[simp] lemma unpack_parent_frame_attr_name (r : Bool) (ppf : String)
    (w : PhysicalEntityData) :
    (unpack_parent_frame_attr r ppf w).name = w.name := by
  cases r
  · rfl
  · unfold unpack_parent_frame_attr
    rcases w.parent_frame with _ | wp
    · by_cases h : ppf = "" <;> simp [h]
    · by_cases h : wp = ppf <;> by_cases h2 : ppf = "" <;> simp_all

@[simp] lemma unpack_parent_frame_attr_type (r : Bool) (ppf : String)
    (w : PhysicalEntityData) :
    (unpack_parent_frame_attr r ppf w).type = w.type := by
  cases r
  · rfl
  · unfold unpack_parent_frame_attr
    rcases w.parent_frame with _ | wp
    · by_cases h : ppf = "" <;> simp [h]
    · by_cases h : wp = ppf <;> by_cases h2 : ppf = "" <;> simp_all

@[simp] lemma unpack_parent_frame_attr_status (r : Bool) (ppf : String)
    (w : PhysicalEntityData) :
    (unpack_parent_frame_attr r ppf w).status = w.status := by
  cases r
  · rfl
  · unfold unpack_parent_frame_attr
    rcases w.parent_frame with _ | wp
    · by_cases h : ppf = "" <;> simp [h]
    · by_cases h : wp = ppf <;> by_cases h2 : ppf = "" <;> simp_all

@[simp] lemma unpack_parent_frame_attr_body (r : Bool) (ppf : String)
    (w : PhysicalEntityData) :
    (unpack_parent_frame_attr r ppf w).body_wrt_struct = w.body_wrt_struct := by
  cases r
  · rfl
  · unfold unpack_parent_frame_attr
    rcases w.parent_frame with _ | wp
    · by_cases h : ppf = "" <;> simp [h]
    · by_cases h : wp = ppf <;> by_cases h2 : ppf = "" <;> simp_all

@[simp] lemma unpack_body_frame_attr_false (pq : QuaternionData)
    (w : PhysicalEntityData) : unpack_body_frame_attr false pq w = w := rfl

@[simp] lemma unpack_body_frame_attr_state (r : Bool) (pq : QuaternionData)
    (w : PhysicalEntityData) :
    (unpack_body_frame_attr r pq w).state = w.state := by cases r <;> rfl

@[simp] lemma unpack_body_frame_attr_name (r : Bool) (pq : QuaternionData)
    (w : PhysicalEntityData) :
    (unpack_body_frame_attr r pq w).name = w.name := by cases r <;> rfl

@[simp] lemma unpack_body_frame_attr_type (r : Bool) (pq : QuaternionData)
    (w : PhysicalEntityData) :
    (unpack_body_frame_attr r pq w).type = w.type := by cases r <;> rfl

@[simp] lemma unpack_body_frame_attr_status (r : Bool) (pq : QuaternionData)
    (w : PhysicalEntityData) :
    (unpack_body_frame_attr r pq w).status = w.status := by cases r <;> rfl

@[simp] lemma unpack_body_frame_attr_parent_frame (r : Bool)
    (pq : QuaternionData) (w : PhysicalEntityData) :
    (unpack_body_frame_attr r pq w).parent_frame = w.parent_frame := by
  cases r <;> rfl

/-! ## Concrete example data (used by witnesses and counterexamples) -/

/-- Example vector. -/
def v3a : Vec3 := ⟨1, 2, 3⟩

/-- Example vector. -/
def v3b : Vec3 := ⟨4, 5, 6⟩

/-- Example quaternion. -/
def q3a : QuaternionData := ⟨1, ⟨0, 0, 0⟩⟩

/-- Example quaternion, distinct from `q3a`. -/
def q3b : QuaternionData := ⟨2, ⟨3, 4, 5⟩⟩

/-- Example space-time coordinate state. -/
def stcA : SpaceTimeCoordinateData := ⟨v3a, v3b, q3a, v3a, 0⟩

/-- Example space-time coordinate state, distinct from `stcA`. -/
def stcB : SpaceTimeCoordinateData := ⟨v3b, v3a, q3b, v3b, 7⟩

/-- An attribute record that was not received this cycle. -/
def attrOff : AttributeFlags := ⟨false, false, false⟩

/-- An attribute record that was received this cycle. -/
def attrOn : AttributeFlags := ⟨false, true, true⟩

/-- No attribute received this cycle. -/
def peAttrsOff : PhysicalEntityAttributes :=
  ⟨attrOff, attrOff, attrOff, attrOff, attrOff, attrOff⟩

/-- Every attribute received this cycle. -/
def peAttrsOn : PhysicalEntityAttributes :=
  ⟨attrOn, attrOn, attrOn, attrOn, attrOn, attrOn⟩

/-- Only the state attribute received this cycle. -/
def peAttrsStateOnly : PhysicalEntityAttributes :=
  ⟨attrOn, attrOff, attrOff, attrOff, attrOff, attrOff⟩

/-- Example working entity data. -/
def wEnt : PhysicalEntityData :=
  { name := some "lander", type := some "vehicle", status := some "ok",
    parent_frame := some "moon", state := stcA, accel := v3a,
    rot_accel := v3b, cm := v3a, body_wrt_struct := q3a }

/-- Example packing data whose name differs from `wEnt`'s. -/
def pEnt : PhysicalEntityPackingData :=
  { name := "orbiter", type := some "vehicle", status := some "ok",
    parent_frame := "moon", state := stcB, accel := v3b, rot_accel := v3a,
    cm := v3b, body_wrt_struct := q3b }

/-- Working data after receiving only the state attribute from `pEnt`. -/
def wEntAfterState : PhysicalEntityData := { wEnt with state := stcB }

/-- Packing data carrying empty optional identity strings. -/
def pEmpty : PhysicalEntityPackingData :=
  { pEnt with type := some "", status := some "", parent_frame := "" }

/-- Working data with a NULL (required) name. -/
def wNoName : PhysicalEntityData := { wEnt with name := none }

/-! ## Claims about the ownership-aware pack/unpack -/

/-- Ownership gating of the unpack, as a reusable lemma: every working
field whose attribute was not received this cycle is unchanged. -/
lemma unpack_gating_fields (a : PhysicalEntityAttributes)
    (p : PhysicalEntityPackingData) (w w' : PhysicalEntityData)
    (h : unpack_into_working_data a p w = some w') :
    (a.state_attr.received_this_cycle = false → w'.state = w.state) ∧
    (a.name_attr.received_this_cycle = false → w'.name = w.name) ∧
    (a.type_attr.received_this_cycle = false → w'.type = w.type) ∧
    (a.status_attr.received_this_cycle = false → w'.status = w.status) ∧
    (a.parent_frame_attr.received_this_cycle = false →
       w'.parent_frame = w.parent_frame) ∧
    (a.body_frame_attr.received_this_cycle = false →
       w'.body_wrt_struct = w.body_wrt_struct) := by
  simp only [unpack_into_working_data] at h
  cases hT : unpack_optional_string a.type_attr.is_received
      (unpack_name_attr a.name_attr.is_received p.name
        (unpack_state_attr a.state_attr.is_received p w)).type p.type with
  | none => rw [hT] at h; cases h
  | some t =>
    rw [hT] at h
    cases hS : unpack_optional_string a.status_attr.is_received
        ({ unpack_name_attr a.name_attr.is_received p.name
             (unpack_state_attr a.state_attr.is_received p w) with
           type := t } : PhysicalEntityData).status p.status with
    | none => rw [hS] at h; cases h
    | some st =>
      rw [hS] at h
      rw [Option.some.injEq] at h
      subst h
      refine ⟨fun hf => ?_, fun hf => ?_, fun hf => ?_, fun hf => ?_,
              fun hf => ?_, fun hf => ?_⟩
      · simp [AttributeFlags.is_received, hf]
      · simp [AttributeFlags.is_received, hf]
      · simp only [AttributeFlags.is_received, hf] at hT
        rw [unpack_optional_string_false, Option.some.injEq] at hT
        simp [← hT]
      · simp only [AttributeFlags.is_received, hf] at hS
        rw [unpack_optional_string_false, Option.some.injEq] at hS
        simp [← hS]
      · simp [AttributeFlags.is_received, hf]
      · simp [AttributeFlags.is_received, hf]

/-- C1: for every field of the working entity state, if the field's
attribute ownership record reports `received_this_cycle == false`, then
`unpack_into_working_data` leaves the corresponding working field
unchanged (byte-for-byte, i.e. value-for-value, equal to its value before
the call). -/
theorem unpack_ownership_gating (a : PhysicalEntityAttributes)
    (p : PhysicalEntityPackingData) (w w' : PhysicalEntityData)
    (h : unpack_into_working_data a p w = some w') :
    (a.state_attr.received_this_cycle = false → w'.state = w.state) ∧
    (a.name_attr.received_this_cycle = false → w'.name = w.name) ∧
    (a.type_attr.received_this_cycle = false → w'.type = w.type) ∧
    (a.status_attr.received_this_cycle = false → w'.status = w.status) ∧
    (a.parent_frame_attr.received_this_cycle = false →
       w'.parent_frame = w.parent_frame) ∧
    (a.body_frame_attr.received_this_cycle = false →
       w'.body_wrt_struct = w.body_wrt_struct) :=
  unpack_gating_fields a p w w' h

/-- Witness for C1 at a concrete input: only the state attribute is
received, and every other working field is unchanged. -/
theorem unpack_ownership_gating_witness :
    unpack_into_working_data peAttrsStateOnly pEnt wEnt = some wEntAfterState ∧
    wEntAfterState.name = wEnt.name ∧
    wEntAfterState.type = wEnt.type ∧
    wEntAfterState.status = wEnt.status ∧
    wEntAfterState.parent_frame = wEnt.parent_frame ∧
    wEntAfterState.body_wrt_struct = wEnt.body_wrt_struct := by
  have h : unpack_into_working_data peAttrsStateOnly pEnt wEnt
      = some wEntAfterState := by decide
  have hg := unpack_ownership_gating peAttrsStateOnly pEnt wEnt wEntAfterState h
  exact ⟨h, hg.2.1 rfl, hg.2.2.1 rfl, hg.2.2.2.1 rfl, hg.2.2.2.2.1 rfl,
         hg.2.2.2.2.2 rfl⟩

/-- C7: `pack_from_working_data` copies every numeric field of the working
entity state into the packing record unconditionally — with no ownership
gating — preserving each value exactly, for every working state with a
non-NULL name and parent frame. -/
theorem pack_numeric_unconditional (w : PhysicalEntityData)
    (p : PhysicalEntityPackingData) (scenario_time : ℚ)
    (hn : w.name ≠ none) (hp : w.parent_frame ≠ none) :
    ∃ p', pack_from_working_data w p scenario_time = some p' ∧
      p'.state.pos = w.state.pos ∧ p'.state.vel = w.state.vel ∧
      p'.state.quat = w.state.quat ∧ p'.state.ang_vel = w.state.ang_vel ∧
      p'.accel = w.accel ∧ p'.rot_accel = w.rot_accel ∧ p'.cm = w.cm ∧
      p'.body_wrt_struct = w.body_wrt_struct := by
  rcases hwn : w.name with _ | wn
  · exact absurd hwn hn
  rcases hwp : w.parent_frame with _ | wp
  · exact absurd hwp hp
  simp only [pack_from_working_data, hwn, hwp]
  exact ⟨_, rfl, rfl, rfl, rfl, rfl, rfl, rfl, rfl, rfl⟩

/-- Witness for C7 at a concrete input. -/
theorem pack_numeric_unconditional_witness :
    ∃ p', pack_from_working_data wEnt pEnt 3 = some p' ∧
      p'.state.pos = wEnt.state.pos ∧ p'.state.vel = wEnt.state.vel ∧
      p'.state.quat = wEnt.state.quat ∧ p'.state.ang_vel = wEnt.state.ang_vel ∧
      p'.accel = wEnt.accel ∧ p'.rot_accel = wEnt.rot_accel ∧
      p'.cm = wEnt.cm ∧ p'.body_wrt_struct = wEnt.body_wrt_struct :=
  pack_numeric_unconditional wEnt pEnt 3 (by decide) (by decide)

/-- C2 (divergence witness): with every attribute received, an incoming
packed name that differs from the non-NULL working name is NOT written
into the working data — the inverted `!strcmp` test in
`unpack_into_working_data` keeps the stale working value, so the working
name does not equal the packed name after the unpack. -/
theorem unpack_stale_name_on_change :
    Option.map PhysicalEntityData.name
        (unpack_into_working_data peAttrsOn pEnt wEnt)
      = some (some "lander") ∧
    pEnt.name = "orbiter" := by
  constructor
  · decide
  · rfl

/-- C6 (divergence witness): with every attribute received, empty
incoming optional strings (type, parent frame) do NOT clear the non-empty
working values — the stale values survive the unpack; a NULL required
working name at pack time, by contrast, is indeed fatal. -/
theorem unpack_empty_optional_not_cleared :
    Option.map PhysicalEntityData.type
        (unpack_into_working_data peAttrsOn pEmpty wEnt)
      = some (some "vehicle") ∧
    Option.map PhysicalEntityData.parent_frame
        (unpack_into_working_data peAttrsOn pEmpty wEnt)
      = some (some "moon") ∧
    pack_from_working_data wNoName pEnt 0 = none := by
  refine ⟨?_, ?_, ?_⟩ <;> decide

/-- C3 (divergence witness): the initialization check of the integrating
compensation engine terminates on `integ_dt = 0.01, integ_tol = 0.1`, but
at the boundary `integ_tol = integ_dt = 0.01` it does NOT terminate — the
source tests `integ_dt < integ_tol`, letting the equality case run even
though tolerance is then not less than the step. -/
theorem integ_init_boundary :
    lag_comp_integ_init (1/100) (1/10) = none ∧
    lag_comp_integ_init (1/100) (1/100) = some () := by
  refine ⟨?_, ?_⟩ <;> norm_num [lag_comp_integ_init]

/-- C10: the default `Conditional::should_send` returns true for every
attribute — unless overridden, every attribute is deemed sendable every
cycle, regardless of whether its value changed. -/
theorem conditional_default_should_send (attr : AttributeFlags) :
    Conditional.should_send attr = true := rfl

/-- C9: readiness of a timed synchronization point at time `t` holds
exactly when `t ≥ target_time` (in particular, a point with target time
10.0 is not ready at 9.9 and is ready at 10.0), and `achieve_all` at time
`t` returns true exactly when at least one previously-unready point
becomes ready at `t`. -/
theorem timed_sync_pnt_readiness :
    (∀ (pt : TimedSyncPnt) (t : ℚ), pt.is_ready t = true ↔ pt.target_time ≤ t) ∧
    (∀ l : String, (TimedSyncPnt.mk l 10 false).is_ready (99/10) = false ∧
       (TimedSyncPnt.mk l 10 false).is_ready 10 = true) ∧
    (∀ (pts : List TimedSyncPnt) (t : ℚ),
       (achieve_all_sync_pnts pts t).2 = true ↔
         ∃ pt ∈ pts, pt.achieved = false ∧ pt.is_ready t = true) := by
  refine ⟨?_, ?_, ?_⟩
  · intro pt t
    simp only [TimedSyncPnt.is_ready, decide_eq_true_eq]
  · intro l
    refine ⟨?_, ?_⟩
    · simp only [TimedSyncPnt.is_ready, decide_eq_false_iff_not]
      norm_num
    · simp only [TimedSyncPnt.is_ready, decide_eq_true_eq]
      norm_num
  · intro pts t
    induction pts with
    | nil => simp [achieve_all_sync_pnts]
    | cons pt rest ih =>
      simp only [achieve_all_sync_pnts]
      by_cases h : (!pt.achieved && pt.is_ready t) = true
      · rw [if_pos h]
        simp only [Bool.and_eq_true, Bool.not_eq_true'] at h
        exact ⟨fun _ => ⟨pt, List.mem_cons_self pt rest, h.1, h.2⟩, fun _ => rfl⟩
      · rw [if_neg h]
        simp only [Bool.and_eq_true, Bool.not_eq_true'] at h
        constructor
        · intro hr
          rcases ih.mp hr with ⟨pt', hmem, hx⟩
          exact ⟨pt', List.mem_cons_of_mem pt hmem, hx⟩
        · rintro ⟨pt', hmem, hx⟩
          rcases List.mem_cons.mp hmem with heq | hmem'
          · subst heq; exact absurd hx h
          · exact ih.mpr ⟨pt', hmem', hx⟩

/-! ## Claims about the lag-compensation engine -/

/-- Identity 3×3 matrix example. -/
def mIdent : Mat3 := ⟨1, 0, 0, 0, 1, 0, 0, 0, 1⟩

/-- Example working dynamical data. -/
def deW : DynamicalEntityData := ⟨v3a, v3b, 2, 0, mIdent, Mat3.zero⟩

/-- Example packed dynamical data. -/
def dePk : DynamicalEntityPackingData := ⟨v3b, v3a, 3, 1, mIdent, Mat3.zero⟩

/-- No dynamical attribute received this cycle. -/
def deAttrsOff : DynamicalEntityAttributes :=
  ⟨attrOff, attrOff, attrOff, attrOff, attrOff, attrOff⟩

/-- Only the inertia attribute received this cycle. -/
def deAttrsInertia : DynamicalEntityAttributes :=
  ⟨attrOff, attrOff, attrOff, attrOff, attrOn, attrOff⟩

/-- Example lag-compensation member state. -/
def lagEx : LagCompState :=
  { lag_comp_data := ⟨v3a, v3b, q3a, v3a, 7⟩, Q_dot := q3a,
    compensate_dt := 0, force := v3a, torque := v3b, mass := 2,
    mass_rate := 0, inertia := mIdent, inertia_rate := Mat3.zero,
    inertia_inv := mIdent }

/-- Example engine state: state attribute received, inertia not. -/
def sEx : DEState :=
  { working := wEnt, working_de := deW, packing := pEnt, de_packing := dePk,
    lag := lagEx, attrs := peAttrsStateOnly, de_attrs := deAttrsOff,
    errors := 0 }

/-- Example engine state holding a singular inertia matrix, with only the
inertia attribute received. -/
def sSing : DEState :=
  { sEx with attrs := peAttrsOff, de_attrs := deAttrsInertia,
             lag := { lagEx with inertia := Mat3.zero } }

/-- Example compensation strategy: leave the kinematic buffer unchanged. -/
def compEx : CompFn := fun lag _ _ => lag.lag_comp_data

/-- C8: neither `send_lag_compensation` nor `receive_lag_compensation`
mutates any attribute ownership record — the per-attribute flags
(`locally_owned`, `changed_since_send`, `received_this_cycle`) of every
attribute are identical before and after each call; only entity state is
modified. -/
theorem lag_compensation_preserves_ownership (comp : CompFn)
    (scenario_time lookahead : ℚ) (s s1 s2 : DEState) :
    (receive_lag_compensation comp scenario_time s = some s1 →
       s1.attrs = s.attrs ∧ s1.de_attrs = s.de_attrs) ∧
    (send_lag_compensation comp scenario_time lookahead s = some s2 →
       s2.attrs = s.attrs ∧ s2.de_attrs = s.de_attrs) := by
  constructor
  · intro h
    simp only [receive_lag_compensation] at h
    repeat' split at h
    all_goals
      first
        | exact Option.noConfusion h
        | (rw [Option.some.injEq] at h; subst h; exact ⟨rfl, rfl⟩)
  · intro h
    simp only [send_lag_compensation] at h
    repeat' split at h
    all_goals
      first
        | exact Option.noConfusion h
        | (rw [Option.some.injEq] at h; subst h; exact ⟨rfl, rfl⟩)

/-- Witness for C8 at concrete inputs, on both paths. -/
theorem lag_compensation_preserves_ownership_witness :
    (∃ s1, receive_lag_compensation compEx 10 sEx = some s1 ∧
       s1.attrs = sEx.attrs ∧ s1.de_attrs = sEx.de_attrs) ∧
    (∃ s2, send_lag_compensation compEx 10 2 sEx = some s2 ∧
       s2.attrs = sEx.attrs ∧ s2.de_attrs = sEx.de_attrs) := by
  have hr : (receive_lag_compensation compEx 10 sEx).isSome = true := rfl
  have hs : (send_lag_compensation compEx 10 2 sEx).isSome = true := rfl
  constructor
  · rcases hrs : receive_lag_compensation compEx 10 sEx with _ | s1
    · rw [hrs] at hr; cases hr
    · exact ⟨s1, rfl,
        (lag_compensation_preserves_ownership compEx 10 2 sEx s1 s1).1 hrs⟩
  · rcases hss : send_lag_compensation compEx 10 2 sEx with _ | s2
    · rw [hss] at hs; cases hs
    · exact ⟨s2, rfl,
        (lag_compensation_preserves_ownership compEx 10 2 sEx s2 s2).2 hss⟩

/-- The lag-compensation members as they stand immediately before the
`compensate` call on the receive path: compensation step recorded, packed
state and dynamical parameters loaded, attitude rate refreshed. -/
def receive_comp_input (scenario_time : ℚ) (s : DEState) : LagCompState :=
  let lag0 := { s.lag with compensate_dt := scenario_time - get_time s.packing }
  let lag1 := load_lag_comp_data s.packing s.de_packing lag0
  { lag1 with Q_dot := derivative_first lag1.lag_comp_data.att
                         lag1.lag_comp_data.ang_vel }

/-- The lag-compensation members as they stand immediately before the
`compensate` call on the send path, after the pack refreshed the packing
record `p'`. -/
def send_comp_input (lookahead : ℚ) (p' : PhysicalEntityPackingData)
    (s : DEState) : LagCompState :=
  let lag0 := { s.lag with compensate_dt := lookahead }
  let lag1 := load_lag_comp_data p'
    (de_pack_from_working_data s.working_de s.de_packing) lag0
  { lag1 with Q_dot := derivative_first lag1.lag_comp_data.att
                         lag1.lag_comp_data.ang_vel }

/-- C5: on the receive path the compensation step runs exactly when the
state attribute was received this cycle, propagating the loaded state
from the received data's embedded timestamp (`get_time`) to the current
scenario time; when it was not received, the compensation buffer and the
working state are retained.  On the send path the state is compensated
from the current scenario time forward by the configured lookahead. -/
theorem lag_compensation_timing (comp : CompFn)
    (scenario_time lookahead : ℚ) (s s1 s2 : DEState) :
    (receive_lag_compensation comp scenario_time s = some s1 →
       (s.attrs.state_attr.received_this_cycle = true →
          s1.lag.lag_comp_data =
            comp (receive_comp_input scenario_time s) (get_time s.packing)
              scenario_time) ∧
       (s.attrs.state_attr.received_this_cycle = false →
          s1.lag.lag_comp_data = s.lag.lag_comp_data ∧
          s1.working.state = s.working.state)) ∧
    (send_lag_compensation comp scenario_time lookahead s = some s2 →
       ∃ p', pack_from_working_data s.working s.packing scenario_time
               = some p' ∧
         s2.lag.lag_comp_data =
           comp (send_comp_input lookahead p' s) scenario_time
             (scenario_time + lookahead)) := by
  constructor
  · intro h
    constructor
    · intro hf
      simp only [receive_lag_compensation, AttributeFlags.is_received, hf,
        if_true] at h
      repeat' split at h
      all_goals
        first
          | exact Option.noConfusion h
          | (rw [Option.some.injEq] at h; subst h; rfl)
    · intro hf
      simp [receive_lag_compensation, AttributeFlags.is_received, hf] at h
      rcases hbi : s.de_attrs.inertia_attr.received_this_cycle with _ | _
      · simp [hbi] at h
        split at h
        · exact Option.noConfusion h
        · rename_i w' heq
          rw [Option.some.injEq] at h
          subst h
          exact ⟨rfl, (unpack_gating_fields _ _ _ _ heq).1 hf⟩
      · rcases hdm : dm_invert_symm s.lag.inertia with _ | minv
        · simp [hbi, hdm] at h
          split at h
          · exact Option.noConfusion h
          · rename_i w' heq
            rw [Option.some.injEq] at h
            subst h
            exact ⟨rfl, (unpack_gating_fields _ _ _ _ heq).1 hf⟩
        · simp [hbi, hdm] at h
          split at h
          · exact Option.noConfusion h
          · rename_i w' heq
            rw [Option.some.injEq] at h
            subst h
            exact ⟨rfl, (unpack_gating_fields _ _ _ _ heq).1 hf⟩
  · intro h
    simp only [send_lag_compensation] at h
    split at h
    · exact Option.noConfusion h
    · rename_i p' hpack
      rw [Option.some.injEq] at h
      subst h
      exact ⟨p', hpack, rfl⟩

/-- Witness for C5 at concrete inputs, on both paths. -/
theorem lag_compensation_timing_witness :
    (∃ s1, receive_lag_compensation compEx 10 sEx = some s1 ∧
       s1.lag.lag_comp_data =
         compEx (receive_comp_input 10 sEx) (get_time sEx.packing) 10) ∧
    (∃ s2 p', send_lag_compensation compEx 10 2 sEx = some s2 ∧
       pack_from_working_data sEx.working sEx.packing 10 = some p' ∧
       s2.lag.lag_comp_data = compEx (send_comp_input 2 p' sEx) 10 (10 + 2)) := by
  have hr : (receive_lag_compensation compEx 10 sEx).isSome = true := rfl
  have hs : (send_lag_compensation compEx 10 2 sEx).isSome = true := rfl
  constructor
  · rcases hrs : receive_lag_compensation compEx 10 sEx with _ | s1
    · rw [hrs] at hr; cases hr
    · exact ⟨s1, rfl, ((lag_compensation_timing compEx 10 2 sEx s1 s1).1 hrs).1 rfl⟩
  · rcases hss : send_lag_compensation compEx 10 2 sEx with _ | s2
    · rw [hss] at hs; cases hs
    · rcases (lag_compensation_timing compEx 10 2 sEx s2 s2).2 hss with ⟨p', hp, hcomp⟩
      exact ⟨s2, p', rfl, hp, hcomp⟩

/-- The inertia matrix handed to `dm_invert_symm` on the receive path:
the freshly loaded packed inertia when state data was received this
cycle, the previously held working inertia otherwise. -/
def receive_inertia_source (s : DEState) : Mat3 :=
  if s.attrs.state_attr.is_received then s.de_packing.inertia else s.lag.inertia

/-- C4: on the receive path, the inertia inversion is attempted exactly
in cycles where the inertia attribute was freshly received.  When it is
received and the matrix is singular, the inertia inverse is set to the
zero matrix, one diagnostic error is reported, and execution continues;
when it is received and regular, the inverse is stored; when it is not
received, the inertia inverse (and the error count) are left unchanged. -/
theorem receive_inertia_inversion (comp : CompFn) (scenario_time : ℚ)
    (s s' : DEState)
    (h : receive_lag_compensation comp scenario_time s = some s') :
    (s.de_attrs.inertia_attr.received_this_cycle = true →
       ((receive_inertia_source s).det = 0 →
          s'.lag.inertia_inv = Mat3.zero ∧ s'.errors = s.errors + 1) ∧
       ((receive_inertia_source s).det ≠ 0 →
          s'.lag.inertia_inv = (receive_inertia_source s).inv ∧
          s'.errors = s.errors)) ∧
    (s.de_attrs.inertia_attr.received_this_cycle = false →
       s'.lag.inertia_inv = s.lag.inertia_inv ∧ s'.errors = s.errors) := by
  rcases hb : s.attrs.state_attr.received_this_cycle with _ | _ <;>
    rcases hbi : s.de_attrs.inertia_attr.received_this_cycle with _ | _ <;>
    simp [receive_lag_compensation, AttributeFlags.is_received, hb, hbi,
      load_lag_comp_data, pe_load_lag_comp_data] at h <;>
    constructor
  case false.false.left | true.false.left =>
    intro hx; exact Bool.noConfusion hx
  case false.true.right | true.true.right =>
    intro hx; exact Bool.noConfusion hx
  case false.false.right | true.false.right =>
    intro _
    split at h
    · exact Option.noConfusion h
    · rw [Option.some.injEq] at h; subst h; exact ⟨rfl, rfl⟩
  case false.true.left | true.true.left =>
    intro _
    constructor
    · intro hdet
      have hdet' := hdet
      simp only [receive_inertia_source, AttributeFlags.is_received, hb,
        if_true, if_false, Bool.false_eq_true] at hdet'
      simp [dm_invert_symm, hdet'] at h
      split at h
      · exact Option.noConfusion h
      · rw [Option.some.injEq] at h; subst h; exact ⟨rfl, rfl⟩
    · intro hdet
      have hdet' := hdet
      simp only [receive_inertia_source, AttributeFlags.is_received, hb,
        if_true, if_false, Bool.false_eq_true] at hdet'
      simp [dm_invert_symm, hdet'] at h
      split at h
      · exact Option.noConfusion h
      · rw [Option.some.injEq] at h
        subst h
        refine ⟨?_, rfl⟩
        simp [receive_inertia_source, AttributeFlags.is_received, hb]

/-- Witness for C4 at a concrete input: a singular working inertia with
the inertia attribute freshly received zero-fills the inverse, reports
one error and the call still completes. -/
theorem receive_inertia_inversion_witness :
    ∃ s', receive_lag_compensation compEx 10 sSing = some s' ∧
      s'.lag.inertia_inv = Mat3.zero ∧ s'.errors = sSing.errors + 1 := by
  have hsome : (receive_lag_compensation compEx 10 sSing).isSome = true := by
    norm_num [receive_lag_compensation, dm_invert_symm, Mat3.det, Mat3.zero,
      unload_lag_comp_data, pe_unload_lag_comp_data, unpack_into_working_data,
      unpack_optional_string, get_time, AttributeFlags.is_received,
      sSing, sEx, lagEx, pEnt, wEnt, peAttrsOff, deAttrsInertia, attrOff,
      attrOn, stcA, stcB, q3a, q3b, v3a, v3b, dePk, deW, mIdent,
      peAttrsStateOnly]
  rcases hrs : receive_lag_compensation compEx 10 sSing with _ | s'
  · rw [hrs] at hsome; cases hsome
  · have hthm := (receive_inertia_inversion compEx 10 sSing s' hrs).1 rfl
    have hdet : (receive_inertia_source sSing).det = 0 := by
      norm_num [receive_inertia_source, AttributeFlags.is_received, sSing, sEx,
        peAttrsOff, attrOff, lagEx, Mat3.det, Mat3.zero]
    exact ⟨s', rfl, (hthm.1 hdet).1, (hthm.1 hdet).2⟩
